import Mathlib

/-!
Verification of `generate_op_defs_core.py` and `test/ops/dml_test_util.py` from
the tensorflow-directml-plugin repository.

The generator script turns TensorFlow operator definitions (`OpDef` records with
a name, input arguments, output arguments and attributes) into C++ descriptor
structs.  We embed the script's string transformations and the structured
content of the emitted text (struct name, name constant, enumeration members,
descriptor arrays and their counts); the fixed indentation and brace layout of
the rendered text is not modelled.  The test helper `should_skip_test` is a
regex predicate over a list of strings; we embed the relevant fragment of
Python's regular expressions (literal characters, the any-character dot, the
Kleene star, concatenation and alternation) with a derivative-based matcher
mirroring `re.match`'s anchored-at-start semantics.
-/

namespace TfDmlPlugin

/-! ### Python string primitives used by the script -/

/-- One pass of Python's `str.title()`: an alphabetic character is uppercased
when the previous character was not alphabetic and lowercased otherwise;
non-alphabetic characters are kept and reset the word boundary. -/
def pyTitleAux : Bool → List Char → List Char
  | _, [] => []
  | prevAlpha, c :: cs =>
    if c.isAlpha then (if prevAlpha then c.toLower else c.toUpper) :: pyTitleAux true cs
    else c :: pyTitleAux false cs

/-- Python's `s.title()` for the ASCII strings the script manipulates. -/
def pyTitle (s : String) : String := String.mk (pyTitleAux false s.data)

/-- Fuel-driven scan of Python's `str.replace`: replace non-overlapping
occurrences of `old` left to right, never rescanning replacement text.
The fuel is an upper bound on the number of characters consumed. -/
def pyReplaceGo (old new : List Char) : Nat → List Char → List Char
  | _, [] => []
  | 0, s => s
  | fuel + 1, c :: cs =>
    if old.isPrefixOf (c :: cs) then
      new ++ pyReplaceGo old new fuel (cs.drop (old.length - 1))
    else
      c :: pyReplaceGo old new fuel cs

/-- Python's `s.replace(old, new)`.  An empty `old` inserts `new` before every
character and at the end, as Python does; the script only ever calls it with
non-empty `old`. -/
def pyReplace (s old new : String) : String :=
  if old.data.isEmpty then String.mk (new.data ++ s.data.flatMap fun c => c :: new.data)
  else String.mk (pyReplaceGo old.data new.data s.data.length s.data)

/-! ### Data model: the subset of the OpDef protobuf the script reads -/

/-- One entry of `input_arg` / `output_arg`: protobuf string fields default to
`""` when absent. -/
structure ArgDef where
  name : String
  number_attr : String
  type_list_attr : String
deriving DecidableEq

/-- One entry of `attr`. -/
structure AttrDef where
  name : String
  type : String
deriving DecidableEq

/-- One operator definition from the registry. -/
structure OpDef where
  name : String
  input_arg : List ArgDef
  output_arg : List ArgDef
  attr : List AttrDef
deriving DecidableEq

/-- The `ArgumentDesc::TensorCount` enumeration of the emitted C++. -/
inductive TensorCount where
  | Single
  | SequenceAttrInt
  | SequenceAttrList
deriving DecidableEq

/-- Structured content of one emitted `ArgumentDesc{...}` literal:
the argument name, the cardinality tag, and the attribute name holding the
count or type list when the tag is one of the sequence forms. -/
structure ArgumentDesc where
  name : String
  tensor_count : TensorCount
  sequence_attr : Option String
deriving DecidableEq

/-- Structured content of one emitted `AttributeDesc{...}` literal: the
attribute name string literal and the `AttributeType::...` enumerator text. -/
structure AttributeDesc where
  name : String
  enum_value : String
deriving DecidableEq

/-! ### The generator (`generate_op_defs_core.py`) -/

/-- `_append_args`: one descriptor per argument, in list order.  `number_attr`
non-empty wins, then `type_list_attr` non-empty, else a single tensor. -/
def _append_args (arg_list : List ArgDef) : List ArgumentDesc :=
  arg_list.map fun arg =>
    if 0 < arg.number_attr.length then
      { name := arg.name
        tensor_count := TensorCount.SequenceAttrInt
        sequence_attr := some arg.number_attr }
    else if 0 < arg.type_list_attr.length then
      { name := arg.name
        tensor_count := TensorCount.SequenceAttrList
        sequence_attr := some arg.type_list_attr }
    else
      { name := arg.name
        tensor_count := TensorCount.Single
        sequence_attr := none }

/-- `_append_attr`: the enumerator is the attribute's `type` string title-cased
with the parenthesis characters removed, prefixed by `AttributeType::`. -/
def _append_attr (attr : AttrDef) : AttributeDesc :=
  { name := attr.name
    enum_value := "AttributeType::" ++ pyReplace (pyReplace (pyTitle attr.type) "(" "") ")" "" }

/-- Structured content of the struct declaration emitted by
`_generate_op_struct` for one operator. -/
structure OpStruct where
  struct_name : String
  name : String
  arg_enum_names : List String
  input_arg_count : Nat
  output_arg_count : Nat
  argument_descs : List ArgumentDesc
  attr_enum_names : List String
  attribute_descs : List AttributeDesc
deriving DecidableEq

/-- `_generate_op_struct`: the struct is named after the operator with `>`
replaced by `_`; the `name` constant keeps the original name; argument
material is input list then output list; attribute enumeration members have
`template` replaced by `template_` while descriptors keep the original name. -/
def _generate_op_struct (operator : OpDef) : OpStruct where
  struct_name := pyReplace operator.name ">" "_"
  name := operator.name
  arg_enum_names := operator.input_arg.map ArgDef.name ++ operator.output_arg.map ArgDef.name
  input_arg_count := operator.input_arg.length
  output_arg_count := operator.output_arg.length
  argument_descs := _append_args operator.input_arg ++ _append_args operator.output_arg
  attr_enum_names := operator.attr.map fun attr => pyReplace attr.name "template" "template_"
  attribute_descs := operator.attr.map _append_attr

/-- Structured content of the out-of-class definitions emitted by
`_generate_op_struct_def` for one operator: the struct name it refers to and
the element count written in the `std::array<AttributeDesc, _>` type. -/
structure OpStructDef where
  struct_name : String
  attribute_desc_count : Nat
deriving DecidableEq

/-- `_generate_op_struct_def`. -/
def _generate_op_struct_def (operator : OpDef) : OpStructDef where
  struct_name := pyReplace operator.name ">" "_"
  attribute_desc_count := operator.attr.length

/-- The driver's per-operator condition
`if not args.op_name or (args.op_name == header_op.name)`. -/
def op_emitted (op_name : String) (op : OpDef) : Bool :=
  (op_name == "") || (op_name == op.name)

/-- The structs the driver writes into the declarations file, in registry
order, for a given `--op_name` filter value. -/
def generated_structs (op_name : String) (op_list : List OpDef) : List OpStruct :=
  (op_list.filter (op_emitted op_name)).map _generate_op_struct

/-! ### The test helper (`test/ops/dml_test_util.py`)

`should_skip_test(pattern, args)` is
`any(re.match(pattern, arg) is not None for arg in args)`.  We embed the
fragment of Python regular expressions needed to give `re.match` meaning:
an abstract pattern built from literal characters, `.` (any character),
concatenation, alternation and `*`, matched against the beginning of the
string (a match may end before the end of the string, as `re.match` allows). -/

/-- Patterns: the regular-expression fragment the helper is used with. -/
inductive Regex where
  | emptyset
  | eps
  | char (c : Char)
  | dot
  | cat (r₁ r₂ : Regex)
  | alt (r₁ r₂ : Regex)
  | star (r : Regex)
deriving DecidableEq

/-- Whether a pattern accepts the empty word. -/
def Regex.nullable : Regex → Bool
  | .emptyset => false
  | .eps => true
  | .char _ => false
  | .dot => false
  | .cat r₁ r₂ => r₁.nullable && r₂.nullable
  | .alt r₁ r₂ => r₁.nullable || r₂.nullable
  | .star _ => true

/-- Brzozowski derivative of a pattern by one character. -/
def Regex.deriv (c : Char) : Regex → Regex
  | .emptyset => .emptyset
  | .eps => .emptyset
  | .char d => if d = c then .eps else .emptyset
  | .dot => .eps
  | .cat r₁ r₂ =>
    if r₁.nullable then .alt (.cat (r₁.deriv c) r₂) (r₂.deriv c) else .cat (r₁.deriv c) r₂
  | .alt r₁ r₂ => .alt (r₁.deriv c) (r₂.deriv c)
  | .star r => .cat (r.deriv c) (.star r)

/-- Does some prefix of the word match the pattern?  This is the semantics of
a successful `re.match`: anchored at the start, free at the end. -/
def Regex.matchesPrefix : Regex → List Char → Bool
  | r, [] => r.nullable
  | r, c :: cs => r.nullable || (r.deriv c).matchesPrefix cs

/-- `re.match(pattern, s) is not None`. -/
def re_match (pattern : Regex) (s : String) : Bool :=
  pattern.matchesPrefix s.data

/-- `should_skip_test` from `dml_test_util.py`. -/
def should_skip_test (pattern : Regex) (args : List String) : Bool :=
  args.any fun arg => re_match pattern arg

/-- Declarative matching relation: `RMatch r w` holds when the pattern `r`
matches exactly the word `w`. -/
inductive RMatch : Regex → List Char → Prop where
  | eps : RMatch .eps []
  | char (c : Char) : RMatch (.char c) [c]
  | dot (c : Char) : RMatch .dot [c]
  | cat {r₁ r₂ : Regex} {s₁ s₂ : List Char} :
      RMatch r₁ s₁ → RMatch r₂ s₂ → RMatch (.cat r₁ r₂) (s₁ ++ s₂)
  | alt_left {r₁ r₂ : Regex} {s : List Char} : RMatch r₁ s → RMatch (.alt r₁ r₂) s
  | alt_right {r₁ r₂ : Regex} {s : List Char} : RMatch r₂ s → RMatch (.alt r₁ r₂) s
  | star_empty (r : Regex) : RMatch (.star r) []
  | star_app {r : Regex} {s₁ s₂ : List Char} :
      RMatch r s₁ → RMatch (.star r) s₂ → RMatch (.star r) (s₁ ++ s₂)

/-- The pattern `gpu.*` from the spec's examples. -/
def gpuPattern : Regex :=
  .cat (.char 'g') (.cat (.char 'p') (.cat (.char 'u') (.star .dot)))

/-! ### Spec-side definitions used to compare claims with the code -/

/-- Characters legal in a C++ identifier (letters, digits, underscore). -/
def isCppIdentifierChar (c : Char) : Bool :=
  c.isAlpha || c.isDigit || c == '_'

/-- The claim's sanitization rule, taken at its words: replace every character
that is illegal in a C++ identifier with an underscore. -/
def claimStructName (name : String) : String :=
  String.mk (name.data.map fun c => if isCppIdentifierChar c then c else '_')

/-- The fixed attribute-type vocabulary named by the spec. -/
def fixedAttributeTypeVocabulary : List String :=
  ["int", "float", "bool", "string", "type", "shape", "tensor", "func",
   "list(int)", "list(float)", "list(bool)", "list(string)", "list(type)",
   "list(shape)", "list(tensor)", "list(func)"]

/-- The claim's failing synthesizer, taken at its words: reject any attribute
whose `type` string is outside the fixed vocabulary with
`UnknownAttributeTypeError`, otherwise behave as the code does. -/
def checked_append_attr (attr : AttrDef) : Except String AttributeDesc :=
  if attr.type ∈ fixedAttributeTypeVocabulary then Except.ok (_append_attr attr)
  else Except.error "UnknownAttributeTypeError"

/-! ### Correctness of the derivative matcher -/

theorem nullable_of_rmatch_nil {r : Regex} {w : List Char} (h : RMatch r w) (hw : w = []) :
    r.nullable = true := by
  induction h with
  | eps => rfl
  | char c => simp at hw
  | dot c => simp at hw
  | cat h₁ h₂ ih₁ ih₂ =>
    rcases List.append_eq_nil.mp hw with ⟨hw₁, hw₂⟩
    simp [Regex.nullable, ih₁ hw₁, ih₂ hw₂]
  | alt_left h ih => simp [Regex.nullable, ih hw]
  | alt_right h ih => simp [Regex.nullable, ih hw]
  | star_empty r => rfl
  | star_app h₁ h₂ ih₁ ih₂ => rfl

theorem rmatch_nil_of_nullable : ∀ {r : Regex}, r.nullable = true → RMatch r [] := by
  intro r
  induction r with
  | emptyset => intro h; simp [Regex.nullable] at h
  | eps => intro _; exact RMatch.eps
  | char c => intro h; simp [Regex.nullable] at h
  | dot => intro h; simp [Regex.nullable] at h
  | cat r₁ r₂ ih₁ ih₂ =>
    intro h
    simp only [Regex.nullable, Bool.and_eq_true] at h
    exact RMatch.cat (ih₁ h.1) (ih₂ h.2)
  | alt r₁ r₂ ih₁ ih₂ =>
    intro h
    simp only [Regex.nullable, Bool.or_eq_true] at h
    rcases h with h | h
    · exact RMatch.alt_left (ih₁ h)
    · exact RMatch.alt_right (ih₂ h)
  | star r ih => intro _; exact RMatch.star_empty r

theorem cat_inv {r₁ r₂ : Regex} {w : List Char} (h : RMatch (.cat r₁ r₂) w) :
    ∃ s₁ s₂, w = s₁ ++ s₂ ∧ RMatch r₁ s₁ ∧ RMatch r₂ s₂ := by
  cases h with
  | cat h₁ h₂ => exact ⟨_, _, rfl, h₁, h₂⟩

theorem rmatch_of_deriv {c : Char} : ∀ {r : Regex} {s : List Char},
    RMatch (r.deriv c) s → RMatch r (c :: s) := by
  intro r
  induction r with
  | emptyset => intro s h; simp only [Regex.deriv] at h; cases h
  | eps => intro s h; simp only [Regex.deriv] at h; cases h
  | char d =>
    intro s h
    simp only [Regex.deriv] at h
    by_cases hdc : d = c
    · rw [if_pos hdc] at h
      cases h
      subst hdc
      exact RMatch.char d
    · rw [if_neg hdc] at h
      cases h
  | dot =>
    intro s h
    simp only [Regex.deriv] at h
    cases h
    exact RMatch.dot c
  | cat r₁ r₂ ih₁ ih₂ =>
    intro s h
    simp only [Regex.deriv] at h
    by_cases hn : r₁.nullable
    · rw [if_pos hn] at h
      cases h with
      | alt_left h' =>
        rcases cat_inv h' with ⟨s₁, s₂, rfl, h₁, h₂⟩
        exact RMatch.cat (ih₁ h₁) h₂
      | alt_right h' =>
        exact RMatch.cat (rmatch_nil_of_nullable hn) (ih₂ h')
    · rw [if_neg hn] at h
      rcases cat_inv h with ⟨s₁, s₂, rfl, h₁, h₂⟩
      exact RMatch.cat (ih₁ h₁) h₂
  | alt r₁ r₂ ih₁ ih₂ =>
    intro s h
    simp only [Regex.deriv] at h
    cases h with
    | alt_left h => exact RMatch.alt_left (ih₁ h)
    | alt_right h => exact RMatch.alt_right (ih₂ h)
  | star r ih =>
    intro s h
    simp only [Regex.deriv] at h
    rcases cat_inv h with ⟨s₁, s₂, rfl, h₁, h₂⟩
    exact RMatch.star_app (ih h₁) h₂

theorem star_split_aux : ∀ {r' : Regex} {w : List Char}, RMatch r' w → ∀ r : Regex,
    r' = .star r →
    w = [] ∨ ∃ c s₁ s₂, w = c :: (s₁ ++ s₂) ∧ RMatch r (c :: s₁) ∧ RMatch (.star r) s₂ := by
  intro r' w h
  induction h with
  | eps => intro r hr; simp at hr
  | char c => intro r hr; simp at hr
  | dot c => intro r hr; simp at hr
  | cat h₁ h₂ ih₁ ih₂ => intro r hr; simp at hr
  | alt_left h ih => intro r hr; simp at hr
  | alt_right h ih => intro r hr; simp at hr
  | star_empty r₀ => intro r hr; exact Or.inl rfl
  | star_app h₁ h₂ ih₁ ih₂ =>
    intro r hr
    rename_i r₀ s₁ s₂
    obtain rfl : r₀ = r := by injection hr
    cases s₁ with
    | nil => simpa using ih₂ _ rfl
    | cons c t => exact Or.inr ⟨c, t, s₂, by simp, h₁, h₂⟩

theorem deriv_of_rmatch (c : Char) : ∀ (r : Regex) (s : List Char),
    RMatch r (c :: s) → RMatch (r.deriv c) s := by
  intro r
  induction r with
  | emptyset => intro s h; cases h
  | eps => intro s h; cases h
  | char d =>
    intro s h
    cases h
    simp only [Regex.deriv, if_pos rfl]
    exact RMatch.eps
  | dot =>
    intro s h
    cases h
    exact RMatch.eps
  | cat r₁ r₂ ih₁ ih₂ =>
    intro s h
    rcases cat_inv h with ⟨s₁, s₂, heq, h₁, h₂⟩
    cases s₁ with
    | nil =>
      have hn : r₁.nullable = true := nullable_of_rmatch_nil h₁ rfl
      obtain rfl : s₂ = c :: s := by simpa using heq.symm
      simp only [Regex.deriv, if_pos hn]
      exact RMatch.alt_right (ih₂ s h₂)
    | cons a t =>
      injection heq with heq₁ heq₂
      subst heq₂
      subst heq₁
      by_cases hn : r₁.nullable
      · simp only [Regex.deriv, if_pos hn]
        exact RMatch.alt_left (RMatch.cat (ih₁ t h₁) h₂)
      · simp only [Regex.deriv, if_neg hn]
        exact RMatch.cat (ih₁ t h₁) h₂
  | alt r₁ r₂ ih₁ ih₂ =>
    intro s h
    simp only [Regex.deriv]
    cases h with
    | alt_left h => exact RMatch.alt_left (ih₁ s h)
    | alt_right h => exact RMatch.alt_right (ih₂ s h)
  | star r ih =>
    intro s h
    rcases star_split_aux h r rfl with hnil | ⟨c', s₁, s₂, heq, h₁, h₂⟩
    · simp at hnil
    · obtain ⟨rfl, rfl⟩ : c' = c ∧ s = s₁ ++ s₂ := by
        injection heq with heq₁ heq₂
        exact ⟨heq₁.symm, heq₂⟩
      simp only [Regex.deriv]
      exact RMatch.cat (ih s₁ h₁) h₂

theorem matchesPrefix_iff : ∀ (s : List Char) (r : Regex),
    r.matchesPrefix s = true ↔ ∃ u t, s = u ++ t ∧ RMatch r u := by
  intro s
  induction s with
  | nil =>
    intro r
    simp only [Regex.matchesPrefix]
    constructor
    · intro h
      exact ⟨[], [], rfl, rmatch_nil_of_nullable h⟩
    · rintro ⟨u, t, heq, hu⟩
      obtain ⟨rfl, rfl⟩ := List.append_eq_nil.mp heq.symm
      exact nullable_of_rmatch_nil hu rfl
  | cons c cs ih =>
    intro r
    simp only [Regex.matchesPrefix, Bool.or_eq_true]
    constructor
    · rintro (h | h)
      · exact ⟨[], c :: cs, rfl, rmatch_nil_of_nullable h⟩
      · rcases (ih _).mp h with ⟨u, t, heq, hu⟩
        exact ⟨c :: u, t, by simp [heq], rmatch_of_deriv hu⟩
    · rintro ⟨u, t, heq, hu⟩
      cases u with
      | nil => exact Or.inl (nullable_of_rmatch_nil hu rfl)
      | cons a u' =>
        injection heq with heq₁ heq₂
        subst heq₂
        subst heq₁
        exact Or.inr ((ih _).mpr ⟨u', t, rfl, deriv_of_rmatch c r u' hu⟩)

/-! ### Helper lemmas -/

theorem string_length_pos_iff (s : String) : 0 < s.length ↔ s ≠ "" := by
  constructor
  · intro h he
    subst he
    simp at h
  · intro h
    cases s with
    | mk d =>
      cases d with
      | nil => exact absurd rfl h
      | cons a t => simp [String.length]

theorem pyReplaceGo_single_char (c d : Char) : ∀ (fuel : Nat) (s : List Char),
    s.length ≤ fuel →
    pyReplaceGo [c] [d] fuel s = s.map fun x => if x = c then d else x := by
  intro fuel
  induction fuel with
  | zero =>
    intro s hs
    obtain rfl : s = [] := List.eq_nil_of_length_eq_zero (Nat.le_zero.mp hs)
    rfl
  | succ n ih =>
    intro s hs
    cases s with
    | nil => rfl
    | cons a t =>
      have ht : t.length ≤ n := Nat.le_of_succ_le_succ (by simpa using hs)
      by_cases hca : c = a
      · subst hca
        have hp : ([c].isPrefixOf (c :: t)) = true := by simp [List.isPrefixOf]
        simp only [pyReplaceGo, hp, if_true, List.map_cons, if_pos rfl]
        simp [ih t ht]
      · have hp : ([c].isPrefixOf (a :: t)) = false := by
          simp [List.isPrefixOf, hca]
        have hac : ¬a = c := fun h => hca h.symm
        simp only [pyReplaceGo, hp, Bool.false_eq_true, if_false, List.map_cons, if_neg hac]
        rw [ih t ht]

theorem pyReplace_single_char (s : String) (c d : Char) :
    pyReplace s (String.mk [c]) (String.mk [d]) =
      String.mk (s.data.map fun x => if x = c then d else x) := by
  unfold pyReplace
  rw [if_neg (by simp)]
  exact congrArg String.mk (pyReplaceGo_single_char c d s.data.length s.data le_rfl)

/-! ### Concrete schemas used by witnesses and counterexamples -/

/-- An operator with one input argument carrying a `number_attr`. -/
def c1OpSeq : OpDef :=
  { name := "Op", output_arg := [], attr := [],
    input_arg := [{ name := "x", number_attr := "N", type_list_attr := "" }] }

/-- An operator with one output argument with both optional fields empty. -/
def c1OpSingle : OpDef :=
  { name := "Op", input_arg := [], attr := [],
    output_arg := [{ name := "y", number_attr := "", type_list_attr := "" }] }

/-- An operator with one input and one output argument. -/
def c2Op : OpDef :=
  { name := "Op", attr := [],
    input_arg := [{ name := "x", number_attr := "", type_list_attr := "" }],
    output_arg := [{ name := "y", number_attr := "", type_list_attr := "" }] }

/-- An operator whose name holds a character (`-`) that is illegal in a C++
identifier and is not `>`. -/
def c3OpDash : OpDef :=
  { name := "A-B", input_arg := [], output_arg := [], attr := [] }

/-- The `Namespace>TestStringOutput` operator of the spec's example. -/
def c3OpNamespace : OpDef :=
  { name := "Namespace>TestStringOutput", input_arg := [], output_arg := [], attr := [] }

/-- An operator with one attribute named exactly `template`. -/
def c6Op : OpDef :=
  { name := "Op", input_arg := [], output_arg := [],
    attr := [{ name := "template", type := "int" }] }

/-- The registry `{Foo, Bar}` of the spec's filtering example. -/
def c7Registry : List OpDef :=
  [{ name := "Foo", input_arg := [], output_arg := [], attr := [] },
   { name := "Bar", input_arg := [], output_arg := [], attr := [] }]

/-- An operator with one attribute whose name contains `template` strictly. -/
def c10Op : OpDef :=
  { name := "Op", input_arg := [], output_arg := [],
    attr := [{ name := "template_count", type := "int" }] }

/-! ### Claim theorems -/

/-- C1: every argument record, taken from the input list and then the output
list in order, synthesizes a descriptor whose cardinality is
`SequenceAttrInt` recording `number_attr` when that field is non-empty,
else `SequenceAttrList` recording `type_list_attr` when that field is
non-empty, else `Single` with no referenced attribute; and a schema whose
arguments all have both fields empty gets `Single` everywhere. -/
theorem c1_argument_cardinality :
    (∀ (op : OpDef) (i : Nat) (a : ArgDef),
      (op.input_arg ++ op.output_arg)[i]? = some a →
      ((a.number_attr ≠ "" →
         (_generate_op_struct op).argument_descs[i]? =
           some { name := a.name, tensor_count := TensorCount.SequenceAttrInt,
                  sequence_attr := some a.number_attr }) ∧
       (a.number_attr = "" → a.type_list_attr ≠ "" →
         (_generate_op_struct op).argument_descs[i]? =
           some { name := a.name, tensor_count := TensorCount.SequenceAttrList,
                  sequence_attr := some a.type_list_attr }) ∧
       (a.number_attr = "" → a.type_list_attr = "" →
         (_generate_op_struct op).argument_descs[i]? =
           some { name := a.name, tensor_count := TensorCount.Single,
                  sequence_attr := none }))) ∧
    (∀ op : OpDef,
      (∀ a ∈ op.input_arg ++ op.output_arg, a.number_attr = "" ∧ a.type_list_attr = "") →
      ∀ d ∈ (_generate_op_struct op).argument_descs,
        d.tensor_count = TensorCount.Single) := by
  have hmap : ∀ op : OpDef, (_generate_op_struct op).argument_descs =
      (op.input_arg ++ op.output_arg).map (fun arg =>
        if 0 < arg.number_attr.length then
          ({ name := arg.name, tensor_count := TensorCount.SequenceAttrInt,
             sequence_attr := some arg.number_attr } : ArgumentDesc)
        else if 0 < arg.type_list_attr.length then
          { name := arg.name, tensor_count := TensorCount.SequenceAttrList,
            sequence_attr := some arg.type_list_attr }
        else
          { name := arg.name, tensor_count := TensorCount.Single,
            sequence_attr := none }) := by
    intro op
    show _append_args op.input_arg ++ _append_args op.output_arg = _
    simp only [_append_args]
    exact (List.map_append _ _ _).symm
  constructor
  · intro op i a ha
    have hd : (_generate_op_struct op).argument_descs[i]? =
        some (if 0 < a.number_attr.length then
          ({ name := a.name, tensor_count := TensorCount.SequenceAttrInt,
             sequence_attr := some a.number_attr } : ArgumentDesc)
        else if 0 < a.type_list_attr.length then
          { name := a.name, tensor_count := TensorCount.SequenceAttrList,
            sequence_attr := some a.type_list_attr }
        else
          { name := a.name, tensor_count := TensorCount.Single,
            sequence_attr := none }) := by
      rw [hmap op, List.getElem?_map, ha]
      rfl
    refine ⟨?_, ?_, ?_⟩
    · intro hne
      rw [hd, if_pos ((string_length_pos_iff _).mpr hne)]
    · intro h1 hne
      have h1' : ¬0 < a.number_attr.length := by rw [h1]; decide
      rw [hd, if_neg h1', if_pos ((string_length_pos_iff _).mpr hne)]
    · intro h1 h2
      have h1' : ¬0 < a.number_attr.length := by rw [h1]; decide
      have h2' : ¬0 < a.type_list_attr.length := by rw [h2]; decide
      rw [hd, if_neg h1', if_neg h2']
  · intro op hall d hd
    rw [hmap op] at hd
    rcases List.mem_map.mp hd with ⟨a, ha, rfl⟩
    rcases hall a ha with ⟨h1, h2⟩
    have h1' : ¬0 < a.number_attr.length := by rw [h1]; decide
    have h2' : ¬0 < a.type_list_attr.length := by rw [h2]; decide
    rw [if_neg h1', if_neg h2']

/-- Witness for C1 at two concrete arguments. -/
theorem c1_argument_cardinality_witness :
    (_generate_op_struct c1OpSeq).argument_descs[0]? =
      some { name := "x", tensor_count := TensorCount.SequenceAttrInt,
             sequence_attr := some "N" } ∧
    (_generate_op_struct c1OpSingle).argument_descs[0]? =
      some { name := "y", tensor_count := TensorCount.Single, sequence_attr := none } := by
  constructor
  · exact (c1_argument_cardinality.1 c1OpSeq 0
      { name := "x", number_attr := "N", type_list_attr := "" } (by decide)).1 (by decide)
  · exact (c1_argument_cardinality.1 c1OpSingle 0
      { name := "y", number_attr := "", type_list_attr := "" } (by decide)).2.2 rfl rfl

/-- C2: the descriptor list has one entry per input plus output argument, the
two count constants are the two list lengths, and descriptors and Argument
enumeration members appear in input-then-output order, each side keeping its
internal order. -/
theorem c2_argument_counts_and_order (op : OpDef) :
    (_generate_op_struct op).argument_descs.length =
      op.input_arg.length + op.output_arg.length ∧
    (_generate_op_struct op).input_arg_count = op.input_arg.length ∧
    (_generate_op_struct op).output_arg_count = op.output_arg.length ∧
    (_generate_op_struct op).arg_enum_names.length =
      op.input_arg.length + op.output_arg.length ∧
    (∀ i : Nat, i < op.input_arg.length →
      (_generate_op_struct op).argument_descs[i]? = (_append_args op.input_arg)[i]? ∧
      (_generate_op_struct op).arg_enum_names[i]? = (op.input_arg[i]?).map ArgDef.name) ∧
    (∀ j : Nat,
      (_generate_op_struct op).argument_descs[op.input_arg.length + j]? =
        (_append_args op.output_arg)[j]? ∧
      (_generate_op_struct op).arg_enum_names[op.input_arg.length + j]? =
        (op.output_arg[j]?).map ArgDef.name) := by
  refine ⟨?_, rfl, rfl, ?_, ?_, ?_⟩
  · show (_append_args op.input_arg ++ _append_args op.output_arg).length = _
    simp [_append_args]
  · show (op.input_arg.map ArgDef.name ++ op.output_arg.map ArgDef.name).length = _
    simp
  · intro i hi
    constructor
    · show (_append_args op.input_arg ++ _append_args op.output_arg)[i]? = _
      exact List.getElem?_append_left (by simpa [_append_args] using hi)
    · show (op.input_arg.map ArgDef.name ++ op.output_arg.map ArgDef.name)[i]? = _
      rw [List.getElem?_append_left (by simpa using hi), List.getElem?_map]
  · intro j
    constructor
    · show (_append_args op.input_arg ++ _append_args op.output_arg)[op.input_arg.length + j]? = _
      rw [List.getElem?_append_right (by simp [_append_args])]
      congr 1
      simp [_append_args]
    · show (op.input_arg.map ArgDef.name ++
          op.output_arg.map ArgDef.name)[op.input_arg.length + j]? = _
      rw [List.getElem?_append_right (by simp), List.getElem?_map]
      congr 1
      simp

/-- Witness for C2 at a schema with one input and one output argument. -/
theorem c2_argument_counts_and_order_witness :
    (_generate_op_struct c2Op).argument_descs[0]? = (_append_args c2Op.input_arg)[0]? ∧
    (_generate_op_struct c2Op).arg_enum_names[0]? =
      (c2Op.input_arg[0]?).map ArgDef.name :=
  (c2_argument_counts_and_order c2Op).2.2.2.2.1 0 (by decide)

/-- C3 is false as stated: the code replaces only the character `>` by `_`;
other characters that are illegal in a C++ identifier, such as `-`, are kept,
so the operator named `A-B` keeps struct name `A-B` while the claim's rule
demands `A_B`. -/
theorem c3_counterexample :
    (_generate_op_struct c3OpDash).struct_name = "A-B" ∧
    claimStructName "A-B" = "A_B" ∧
    ¬(_generate_op_struct c3OpDash).struct_name = claimStructName "A-B" := by decide

/-- C3 (amended): the synthesized struct name is the operator name with every
occurrence of the character `>` replaced by `_` (other characters are kept
unchanged, legal or not); the `name` constant keeps the original operator
name; the operator `Namespace>TestStringOutput` yields struct name
`Namespace_TestStringOutput`. -/
theorem c3_struct_name_sanitization (op : OpDef) :
    (_generate_op_struct op).struct_name =
      String.mk (op.name.data.map fun c => if c = '>' then '_' else c) ∧
    (_generate_op_struct op).name = op.name ∧
    (_generate_op_struct c3OpNamespace).struct_name = "Namespace_TestStringOutput" := by
  refine ⟨?_, rfl, by decide⟩
  show pyReplace op.name ">" "_" = _
  rw [show (">" : String) = String.mk ['>'] from rfl,
    show ("_" : String) = String.mk ['_'] from rfl]
  exact pyReplace_single_char op.name '>' '_'

/-- C4: on the fixed vocabulary, the attribute type tag is the type string
with the first letter of each token capitalized and the parenthesis
characters removed: `int` maps to `Int`, `list(int)` to `ListInt`,
`list(string)` to `ListString`, and so on. -/
theorem c4_attribute_type_mapping :
    _append_attr { name := "a", type := "int" } =
      { name := "a", enum_value := "AttributeType::Int" } ∧
    _append_attr { name := "a", type := "float" } =
      { name := "a", enum_value := "AttributeType::Float" } ∧
    _append_attr { name := "a", type := "bool" } =
      { name := "a", enum_value := "AttributeType::Bool" } ∧
    _append_attr { name := "a", type := "string" } =
      { name := "a", enum_value := "AttributeType::String" } ∧
    _append_attr { name := "a", type := "type" } =
      { name := "a", enum_value := "AttributeType::Type" } ∧
    _append_attr { name := "a", type := "shape" } =
      { name := "a", enum_value := "AttributeType::Shape" } ∧
    _append_attr { name := "a", type := "tensor" } =
      { name := "a", enum_value := "AttributeType::Tensor" } ∧
    _append_attr { name := "a", type := "func" } =
      { name := "a", enum_value := "AttributeType::Func" } ∧
    _append_attr { name := "a", type := "list(int)" } =
      { name := "a", enum_value := "AttributeType::ListInt" } ∧
    _append_attr { name := "a", type := "list(float)" } =
      { name := "a", enum_value := "AttributeType::ListFloat" } ∧
    _append_attr { name := "a", type := "list(bool)" } =
      { name := "a", enum_value := "AttributeType::ListBool" } ∧
    _append_attr { name := "a", type := "list(string)" } =
      { name := "a", enum_value := "AttributeType::ListString" } ∧
    _append_attr { name := "a", type := "list(type)" } =
      { name := "a", enum_value := "AttributeType::ListType" } ∧
    _append_attr { name := "a", type := "list(shape)" } =
      { name := "a", enum_value := "AttributeType::ListShape" } ∧
    _append_attr { name := "a", type := "list(tensor)" } =
      { name := "a", enum_value := "AttributeType::ListTensor" } ∧
    _append_attr { name := "a", type := "list(func)" } =
      { name := "a", enum_value := "AttributeType::ListFunc" } := by decide

/-- C5 is false as stated: the code performs no vocabulary validation and
never raises; an attribute whose type string `banana` is outside the fixed
vocabulary still gets a descriptor (with enumerator `AttributeType::Banana`),
where the claim's checked synthesizer would fail with
`UnknownAttributeTypeError`. -/
theorem c5_counterexample :
    "banana" ∉ fixedAttributeTypeVocabulary ∧
    _append_attr { name := "x", type := "banana" } =
      { name := "x", enum_value := "AttributeType::Banana" } ∧
    checked_append_attr { name := "x", type := "banana" } =
      Except.error "UnknownAttributeTypeError" := by
  refine ⟨by decide, by decide, rfl⟩

/-- C5 (amended): synthesis never fails; for every attribute, inside the
vocabulary or not, `_append_attr` emits a descriptor carrying the attribute's
name and the title-cased paren-stripped enumerator, as the `banana` example
shows. -/
theorem c5_no_unknown_type_failure :
    (∀ attr : AttrDef, (_append_attr attr).name = attr.name ∧
      (_append_attr attr).enum_value =
        "AttributeType::" ++ pyReplace (pyReplace (pyTitle attr.type) "(" "") ")" "") ∧
    _append_attr { name := "x", type := "banana" } =
      { name := "x", enum_value := "AttributeType::Banana" } :=
  ⟨fun _ => ⟨rfl, rfl⟩, by decide⟩

/-- C6: an attribute named exactly `template` appears in the Attribute
enumeration as `template_`, while its AttributeDesc keeps the string literal
`template`. -/
theorem c6_template_attribute (op : OpDef) (i : Nat) (a : AttrDef)
    (ha : op.attr[i]? = some a) (hname : a.name = "template") :
    (_generate_op_struct op).attr_enum_names[i]? = some "template_" ∧
    ((_generate_op_struct op).attribute_descs[i]?).map AttributeDesc.name =
      some "template" := by
  constructor
  · show (op.attr.map fun attr => pyReplace attr.name "template" "template_")[i]? = _
    rw [List.getElem?_map, ha]
    simp only [Option.map_some']
    rw [hname]
    exact congrArg some (by decide)
  · show ((op.attr.map _append_attr)[i]?).map AttributeDesc.name = _
    rw [List.getElem?_map, ha]
    simp [_append_attr, hname]

/-- Witness for C6 at a schema with one attribute named `template`. -/
theorem c6_template_attribute_witness :
    (_generate_op_struct c6Op).attr_enum_names[0]? = some "template_" ∧
    ((_generate_op_struct c6Op).attribute_descs[0]?).map AttributeDesc.name =
      some "template" :=
  c6_template_attribute c6Op 0 { name := "template", type := "int" } (by decide) rfl

/-- C7: with a non-empty `--op_name` filter a struct is emitted for an
operator exactly when its name equals the filter; with the empty filter every
operator is emitted; filtering `{Foo, Bar}` by `Foo` yields exactly the one
struct for `Foo`. -/
theorem c7_op_name_filter :
    (∀ (op_name : String) (op : OpDef), op_name ≠ "" →
      (op_emitted op_name op = true ↔ op.name = op_name)) ∧
    (∀ op : OpDef, op_emitted "" op = true) ∧
    (generated_structs "Foo" c7Registry).map OpStruct.name = ["Foo"] := by
  refine ⟨?_, ?_, by decide⟩
  · intro op_name op h
    simp only [op_emitted, Bool.or_eq_true, beq_iff_eq]
    constructor
    · rintro (h1 | h1)
      · exact absurd h1 h
      · exact h1.symm
    · intro hn
      exact Or.inr hn.symm
  · intro op
    simp [op_emitted]

/-- Witness for C7 at the filter `Foo` and the operator `Bar`. -/
theorem c7_op_name_filter_witness :
    op_emitted "Foo" { name := "Bar", input_arg := [], output_arg := [], attr := [] } =
      true ↔
      ({ name := "Bar", input_arg := [], output_arg := [], attr := [] } : OpDef).name =
        "Foo" :=
  c7_op_name_filter.1 "Foo" _ (by decide)

/-- C8: `should_skip_test pattern args` is true exactly when some string of
`args` has a prefix matched by the pattern (the anchored-at-start semantics
of `re.match`), and on the pattern `gpu.*` the three concrete examples
evaluate as the spec states. -/
theorem c8_should_skip_test :
    (∀ (pattern : Regex) (args : List String),
      should_skip_test pattern args = true ↔
        ∃ a ∈ args, ∃ u t, a.data = u ++ t ∧ RMatch pattern u) ∧
    should_skip_test gpuPattern ["gpu0", "cpu0"] = true ∧
    should_skip_test gpuPattern ["cpu0"] = false ∧
    should_skip_test gpuPattern [] = false := by
  refine ⟨?_, by decide, by decide, rfl⟩
  intro pattern args
  simp only [should_skip_test, List.any_eq_true, re_match]
  constructor
  · rintro ⟨a, ha, hm⟩
    exact ⟨a, ha, (matchesPrefix_iff a.data pattern).mp hm⟩
  · rintro ⟨a, ha, u, t, heq, hu⟩
    exact ⟨a, ha, (matchesPrefix_iff a.data pattern).mpr ⟨u, t, heq, hu⟩⟩

/-- C9: for every operator the declarations generator and the definitions
generator compute the same struct name, and the attribute-array size written
in the out-of-class definitions equals the number of attribute descriptors
(and of Attribute enumeration members) in the declaration. -/
theorem c9_decl_def_consistency (op : OpDef) :
    (_generate_op_struct_def op).struct_name = (_generate_op_struct op).struct_name ∧
    (_generate_op_struct_def op).attribute_desc_count =
      (_generate_op_struct op).attribute_descs.length ∧
    (_generate_op_struct_def op).attribute_desc_count =
      (_generate_op_struct op).attr_enum_names.length := by
  refine ⟨rfl, ?_, ?_⟩ <;> simp [_generate_op_struct, _generate_op_struct_def]

/-- C10: the reserved-word guard substitutes on substrings: every Attribute
enumeration member is the attribute name with every occurrence of `template`
replaced by `template_` (so `template_count` yields `template__count`), while
the AttributeDesc entry always keeps the original attribute name. -/
theorem c10_template_substring_replacement :
    (∀ (op : OpDef) (i : Nat),
      (_generate_op_struct op).attr_enum_names[i]? =
        (op.attr[i]?).map fun a => pyReplace a.name "template" "template_") ∧
    (∀ (op : OpDef) (i : Nat),
      ((_generate_op_struct op).attribute_descs[i]?).map AttributeDesc.name =
        (op.attr[i]?).map AttrDef.name) ∧
    pyReplace "template_count" "template" "template_" = "template__count" ∧
    pyReplace "a_template_b_template" "template" "template_" =
      "a_template__b_template_" ∧
    (_generate_op_struct c10Op).attr_enum_names = ["template__count"] := by
  refine ⟨?_, ?_, by decide, by decide, by decide⟩
  · intro op i
    show (op.attr.map fun attr => pyReplace attr.name "template" "template_")[i]? = _
    rw [List.getElem?_map]
  · intro op i
    show ((op.attr.map _append_attr)[i]?).map AttributeDesc.name = _
    rw [List.getElem?_map]
    cases op.attr[i]? with
    | none => rfl
    | some a => rfl

end TfDmlPlugin
